import Mathlib

/-!
Verification of the clickstream producer (`src/producer/app.py`).

The producer is a single sequential Python program.  We embed it shallowly:

* All sources of nondeterminism are explicit streams inside a world state `W`:
  - `rand : Nat → Nat` models the stream of draws taken from Python's global
    `random` generator (each call to `random.choice` / `random.random` /
    `random.randint` / `random.uniform` consumes exactly one draw, mirroring
    the call order of the source);
  - `uuid : Nat → String` models the stream of `uuid.uuid4()` hex strings
    (the `[:16]` / `[:12]` truncations are folded into the abstract stream);
  - `city : Nat → String` models the `fake.city()` collaborator;
  - `clock : Nat → Int` models wall-clock reads (`datetime.now(timezone.utc)`),
    as an integer count of milliseconds, matching the millisecond precision of
    `isoformat(timespec="milliseconds")`.  ISO-8601 UTC rendering is an
    injective, order-preserving map from this value, modelled by `isoOf`.
* `random.random()` returns a unit-interval draw; we model it as a rational
  with a fixed resolution (`unitQ`).  As in Python, `unitQ n < rate` is always
  false for `rate = 0` and always true for `rate = 1`.
* Machine floats (`price`) are modelled as rationals.
-/

/-- World state: the explicit streams of nondeterminism consumed by the
program, each with its read cursor. -/
structure W where
  rand : Nat → Nat
  uuid : Nat → String
  city : Nat → String
  clock : Nat → Int
  ri : Nat
  ui : Nat
  ci : Nat
  ti : Nat
deriving Inhabited

/-- Pull the next raw draw from the `random` stream. -/
def nextNat (w : W) : Nat × W :=
  (w.rand w.ri, { w with ri := w.ri + 1 })

/-- Pull the next `uuid.uuid4()` hex string. -/
def nextUuid (w : W) : String × W :=
  (w.uuid w.ui, { w with ui := w.ui + 1 })

/-- Pull the next `fake.city()` value. -/
def nextCity (w : W) : String × W :=
  (w.city w.ci, { w with ci := w.ci + 1 })

/-- Read the wall clock (`datetime.now(timezone.utc)`), in milliseconds. -/
def nowClock (w : W) : Int × W :=
  (w.clock w.ti, { w with ti := w.ti + 1 })

/-- The unit-interval value of one raw draw: models `random.random()`,
which returns a value in `[0, 1)`. -/
def unitQ (n : Nat) : ℚ :=
  ((n % 1000000 : Nat) : ℚ) / 1000000

/-- Models `random.random() < rate`. -/
def coinFlip (rate : ℚ) (w : W) : Bool × W :=
  let p := nextNat w
  (decide (unitQ p.1 < rate), p.2)

/-- Models `random.choice(l)` for nonempty `l`: a uniformly chosen element. -/
def randChoice {α : Type} (l : List α) (d : α) (w : W) : α × W :=
  let p := nextNat w
  (l.getD (p.1 % l.length) d, p.2)

/-- Models `random.randint(a, b)` (both endpoints inclusive), for `a ≤ b`. -/
def randint (a b : Nat) (w : W) : Nat × W :=
  let p := nextNat w
  (a + p.1 % (b - a + 1), p.2)

/-- Models `random.uniform(a, b)`. -/
def uniformQ (a b : ℚ) (w : W) : ℚ × W :=
  let p := nextNat w
  (a + (b - a) * unitQ p.1, p.2)

/-- Models Python's `round(x, 2)`. -/
def round2 (q : ℚ) : ℚ :=
  (⌊q * 100⌋ : ℚ) / 100

-- Constant pools, verbatim from the source (module level of app.py).

def EVENT_TYPES : List String := ["page_view", "add_to_cart", "purchase"]

def PAGES : List String :=
  ["/", "/search", "/product", "/cart", "/checkout", "/help", "/pricing"]

def BROWSERS : List String := ["Chrome", "Firefox", "Safari", "Edge"]

def OSES : List String := ["iOS", "Android", "Windows", "macOS", "Linux"]

def COUNTRIES : List String :=
  ["DE", "FR", "NL", "GB", "US", "PL", "SE", "ES", "IT"]

/-- The commerce page pool of `make_event`
(`random.choice(["/product", "/cart", "/checkout"])`). -/
def COMMERCE_PAGES : List String := ["/product", "/cart", "/checkout"]

/-- A primitive JSON value stored in the `attributes` mapping:
a string, an int, or a float (modelled as a rational). -/
inductive Prim where
  | s : String → Prim
  | i : Int → Prim
  | q : ℚ → Prim
deriving DecidableEq

/-- The `ClickstreamEvent` dataclass.  `event_ts` holds the timestamp value
(epoch milliseconds) underlying the ISO-8601 string; `device`, `geo` and
`attributes` are insertion-ordered mappings, as Python dicts are. -/
structure ClickstreamEvent where
  event_id : String
  event_ts : Int
  user_id : String
  session_id : String
  event_type : String
  page : String
  referrer : String
  device : List (String × String)
  geo : List (String × String)
  attributes : List (String × Prim)
deriving DecidableEq

/-- Models `etype = event_type or random.choice(EVENT_TYPES)` — Python's `or`
falls through on any falsy value, i.e. on `None` and on the empty string. -/
def pickEtype (event_type : Option String) (w : W) : String × W :=
  match event_type with
  | some t => if t = "" then randChoice EVENT_TYPES "" w else (t, w)
  | none => randChoice EVENT_TYPES "" w

/-- Page selection of `make_event`: a draw from the full pool, overridden by a
draw from the commerce pool for `add_to_cart` / `purchase`. -/
def pickPage (etype : String) (w : W) : String × W :=
  let p := randChoice PAGES "" w
  if etype = "add_to_cart" ∨ etype = "purchase" then
    randChoice COMMERCE_PAGES "" p.2
  else p

/-- The `attrs` dict built by `make_event`: the base fields, extended by the
commerce fields for `add_to_cart` / `purchase`, further extended by
`order_id` / `payment_method` for `purchase`.  `dict.update` with fresh keys
appends in insertion order. -/
def mkAttrs (etype : String) (w : W) : List (String × Prim) × W :=
  let ab := randChoice ["A", "B"] "" w
  let camp := randChoice ["brand", "summer_sale", "retargeting", "none"] "" ab.2
  let base := [("ab_test_variant", Prim.s ab.1), ("utm_campaign", Prim.s camp.1)]
  if etype = "add_to_cart" ∨ etype = "purchase" then
    let sku := randint 1000 9999 camp.2
    let prc := uniformQ 5 300 sku.2
    let cur := randChoice ["EUR", "USD", "GBP"] "" prc.2
    let qty := randint 1 3 cur.2
    let commerce := base ++
      [("product_id", Prim.s ("sku_" ++ toString sku.1)),
       ("price", Prim.q (round2 prc.1)),
       ("currency", Prim.s cur.1),
       ("quantity", Prim.i (Int.ofNat qty.1))]
    if etype = "purchase" then
      let oid := nextUuid qty.2
      let pm := randChoice ["card", "paypal", "klarna"] "" oid.2
      (commerce ++
        [("order_id", Prim.s ("ord_" ++ oid.1)),
         ("payment_method", Prim.s pm.1)], pm.2)
    else (commerce, qty.2)
  else (base, camp.2)

/-- The `make_event` function from the source, with the draws in source order:
type, page, referrer, device os, device browser, country, city,
attributes, event_id (uuid4), event_ts (now). -/
def make_event (user_id session_id : String) (event_type : Option String)
    (w : W) : ClickstreamEvent × W :=
  let et := pickEtype event_type w
  let pg := pickPage et.1 et.2
  let ref := randChoice
    ["direct", "google", "newsletter", "twitter", "linkedin", "partner_site"]
    "" pg.2
  let osd := randChoice OSES "" ref.2
  let br := randChoice BROWSERS "" osd.2
  let ctr := randChoice COUNTRIES "" br.2
  let cty := nextCity ctr.2
  let ats := mkAttrs et.1 cty.2
  let eid := nextUuid ats.2
  let ts := nowClock eid.2
  (⟨eid.1, ts.1, user_id, session_id, et.1, pg.1, ref.1,
    [("os", osd.1), ("browser", br.1)],
    [("country", ctr.1), ("city", cty.1)], ats.1⟩, ts.2)

/-- Source `new_user_id`: `"usr_" + uuid4().hex[:16]`. -/
def new_user_id (w : W) : String × W :=
  let u := nextUuid w
  ("usr_" ++ u.1, u.2)

/-- Source `new_session_id`: `"sess_" + uuid4().hex[:16]`. -/
def new_session_id (w : W) : String × W :=
  let u := nextUuid w
  ("sess_" ++ u.1, u.2)

/-- The weighted draw
`random.choices(population, weights=[0.78, 0.18, 0.04], k=1)[0]`,
modelled as the standard cumulative-weight selection on one unit draw. -/
def weightedEtype (w : W) : String × W :=
  let p := nextNat w
  let u := unitQ p.1
  (if u < 78 / 100 then "page_view"
   else if u < 96 / 100 then "add_to_cart"
   else "purchase", p.2)

/-- The `for _ in range(n - 1)` body of `generate_session_events`:
append `k` more weighted-type events. -/
def sessionTail (user_id session_id : String) : Nat → W → List ClickstreamEvent × W
  | 0, w => ([], w)
  | Nat.succ k, w =>
      let t := weightedEtype w
      let e := make_event user_id session_id (some t.1) t.2
      let rest := sessionTail user_id session_id k e.2
      (e.1 :: rest.1, rest.2)

/-- Source `generate_session_events`: a fresh session id, a first `page_view` event,
then `n - 1` weighted events where `n = random.randint(1, max_events)`. -/
def generate_session_events (user_id : String) (max_events : Nat) (w : W) :
    List ClickstreamEvent × W :=
  let sid := new_session_id w
  let e0 := make_event user_id sid.1 (some "page_view") sid.2
  let n := randint 1 max_events e0.2
  let rest := sessionTail user_id sid.1 (n.1 - 1) n.2
  (e0.1 :: rest.1, rest.2)

/-!  Serialization: `json.dumps(payload, separators=(",", ":"), ensure_ascii=False)`
on `asdict(ev)`.  `asdict` of the dataclass yields the fields in declaration
order; `json.dumps` preserves dict insertion order.  The serializer is compact
by construction: the only separators are `,` and `:` with no whitespace, and
non-ASCII characters pass through unescaped (only `"` and `\` are escaped). -/

/-- JSON string escaping with `ensure_ascii=False`: escape backslash and
double quote, pass everything else through. -/
def escapeChars : List Char → List Char
  | [] => []
  | c :: cs =>
      (if c = '\\' then ['\\', '\\']
       else if c = '\"' then ['\\', '\"'] else [c]) ++ escapeChars cs

/-- A JSON string literal. -/
def jstr (s : String) : String :=
  "\"" ++ String.mk (escapeChars s.data) ++ "\""

/-- Rendering of a float (rational) value; stands for Python's `repr(float)`. -/
def renderRat (v : ℚ) : String :=
  toString v.num ++ "." ++ toString v.den

/-- Rendering of one primitive attribute value. -/
def dumpPrim : Prim → String
  | Prim.s s => jstr s
  | Prim.i n => toString n
  | Prim.q v => renderRat v

/-- A compact JSON object from an insertion-ordered mapping. -/
def dumpPairs {α : Type} (f : α → String) (l : List (String × α)) : String :=
  "\x7b" ++ ",".intercalate (l.map fun kv => jstr kv.1 ++ ":" ++ f kv.2) ++ "\x7d"

/-- ISO-8601 UTC rendering of a timestamp value
(`isoformat(timespec="milliseconds")`): an injective order-preserving
formatting, modelled by decimal rendering of the millisecond count. -/
def isoOf (t : Int) : String := toString t

/-- Models `json.dumps(asdict(ev), separators=(",", ":"), ensure_ascii=False)`:
one compact JSON object, fields in dataclass order. -/
def dumps (p : ClickstreamEvent) : String :=
  "\x7b" ++ ",".intercalate
    [jstr "event_id" ++ ":" ++ jstr p.event_id,
     jstr "event_ts" ++ ":" ++ jstr (isoOf p.event_ts),
     jstr "user_id" ++ ":" ++ jstr p.user_id,
     jstr "session_id" ++ ":" ++ jstr p.session_id,
     jstr "event_type" ++ ":" ++ jstr p.event_type,
     jstr "page" ++ ":" ++ jstr p.page,
     jstr "referrer" ++ ":" ++ jstr p.referrer,
     jstr "device" ++ ":" ++ dumpPairs jstr p.device,
     jstr "geo" ++ ":" ++ dumpPairs jstr p.geo,
     jstr "attributes" ++ ":" ++ dumpPairs dumpPrim p.attributes] ++ "\x7d"

/-!  The emission loop of `main` (lines 159-207). -/

/-- Command-line configuration (`args`).  `events` is an `Int` because
`argparse` with `type=int` accepts any integer, negative included; the rates
are accepted unchecked as well. -/
structure Config where
  events : Int
  max_events_per_session : Nat
  out : String
  dup_rate : ℚ
  oo_rate : ℚ
deriving Inhabited

/-- Loop state of `main`: world, `previously_emitted`, the record lines
written so far, and the `emitted` counter. -/
structure LoopState where
  w : W
  window : List ClickstreamEvent
  output : List String
  emitted : Nat

/-- Out-of-order injection (lines 183-186): with probability `oo_rate`,
replace `event_ts` by `now - randint(60, 3600)` seconds
(the clock is in milliseconds). -/
def injectOO (oo_rate : ℚ) (payload : ClickstreamEvent) (w : W) :
    ClickstreamEvent × W :=
  let b := coinFlip oo_rate w
  if b.1 then
    let t := nowClock b.2
    let d := randint 60 3600 t.2
    ({ payload with event_ts := t.1 - 1000 * (d.1 : Int) }, d.2)
  else (payload, b.2)

/-- Duplicate injection (lines 188-190):
`if previously_emitted and random.random() < args.dup_rate:
payload = random.choice(previously_emitted)` —
the `random()` draw happens only when the window is nonempty. -/
def injectDup (dup_rate : ℚ) (window : List ClickstreamEvent)
    (payload : ClickstreamEvent) (w : W) : ClickstreamEvent × W :=
  if window.isEmpty then (payload, w)
  else
    let b := coinFlip dup_rate w
    if b.1 then randChoice window payload b.2 else (payload, b.2)

/-- Retained-window truncation (lines 201-202): `previously_emitted[-2000:]`
once the length exceeds 5000. -/
def truncateWindow (l : List ClickstreamEvent) : List ClickstreamEvent :=
  if 5000 < l.length then l.drop (l.length - 2000) else l

/-- The write-and-record step (lines 192-204): serialize the (post-injection)
payload, write the line, append the payload to `previously_emitted`,
truncate the window, bump `emitted`.  The optional `sleep` is pure pacing
with no observable effect on the stream and is elided. -/
def emitCore (pr : ClickstreamEvent × W) (s : LoopState) : LoopState :=
  ⟨pr.2, truncateWindow (s.window ++ [pr.1]), s.output ++ [dumps pr.1],
    s.emitted + 1⟩

/-- One execution of the inner loop body (lines 181-204): out-of-order
injection on the fresh payload, then the duplicate check, then the write. -/
def emitOne (cfg : Config) (ev : ClickstreamEvent) (s : LoopState) : LoopState :=
  let p1 := injectOO cfg.oo_rate ev s.w
  let p2 := injectDup cfg.dup_rate s.window p1.1 p1.2
  emitCore p2 s

/-- The inner `for ev in session_events` loop with its
`if emitted >= args.events: break` guard (lines 177-179). -/
def emitSession (cfg : Config) : List ClickstreamEvent → LoopState → LoopState
  | [], s => s
  | ev :: rest, s =>
      if cfg.events ≤ (s.emitted : Int) then s
      else emitSession cfg rest (emitOne cfg ev s)

/-- The outer `while emitted < args.events` loop (lines 173-175), written with
explicit fuel.  `run` supplies fuel `cfg.events.toNat`, which is enough:
every active outer iteration emits at least one record
(`mainLoop_run_emitted` below), so the fuelled loop stops exactly where the
`while` loop does. -/
def mainLoop (cfg : Config) : Nat → LoopState → LoopState
  | 0, s => s
  | Nat.succ fuel, s =>
      if (s.emitted : Int) < cfg.events then
        let uid := new_user_id s.w
        let se := generate_session_events uid.1 cfg.max_events_per_session uid.2
        mainLoop cfg fuel (emitSession cfg se.1 ⟨se.2, s.window, s.output, s.emitted⟩)
      else s

/-- The whole emission loop, from the empty window and a zero counter. -/
def run (cfg : Config) (w : W) : LoopState :=
  mainLoop cfg cfg.events.toNat ⟨w, [], [], 0⟩

/-!  The I/O shell of `main` (lines 157-211). -/

/-- Models `os.path.dirname`, as implemented by `posixpath.dirname`/`split`:
everything before the final slash, with trailing slashes stripped unless the
head is all slashes. -/
def rstripSlash (l : List Char) : List Char :=
  (l.reverse.dropWhile (fun c => c = '/')).reverse

def dirname (p : String) : String :=
  let cs := p.data
  let i := match cs.reverse.findIdx? (fun c => c = '/') with
    | none => 0
    | some j => cs.length - j
  let head := cs.take i
  String.mk (if head ≠ [] ∧ head.any (fun c => c ≠ '/') then rstripSlash head else head)

/-- Models `os.makedirs(path, exist_ok=True)`: raises `FileNotFoundError` on
the empty path (even with `exist_ok=True`), succeeds otherwise; whether the
target is writable is the concern of `open`, modelled separately. -/
def makedirs (p : String) : Except String Unit :=
  if p = "" then Except.error "FileNotFoundError" else Except.ok ()

/-- The startup banner (line 157): `print("producer starting with args:", args)`
goes to standard output before any record. -/
def banner (cfg : Config) : String :=
  "producer starting with args: Namespace(events=" ++ toString cfg.events ++ ")"

/-- Observable outcome of one process run: the lines on standard output, the
lines in the output file (when one was opened), and the exit code. -/
structure RunResult where
  stdoutLines : List String
  fileLines : Option (List String)
  exitValue : Nat

/-- The whole of `main` (lines 131-211): print the banner; for `--out -`
write records to stdout; otherwise `makedirs(dirname(out))` (an uncaught
exception exits non-zero with nothing emitted), then open the file (an
unwritable path exits non-zero with nothing emitted), then write records to
the file.  Normal completion exits 0. -/
def program (cfg : Config) (writable : String → Bool) (w : W) : RunResult :=
  if cfg.out = "-" then
    ⟨banner cfg :: (run cfg w).output, none, 0⟩
  else
    match makedirs (dirname cfg.out) with
    | Except.error _ => ⟨[banner cfg], none, 1⟩
    | Except.ok _ =>
        if writable cfg.out then ⟨[banner cfg], some ((run cfg w).output), 0⟩
        else ⟨[banner cfg], none, 1⟩

/-!  Helper lemmas. -/

/-- A `random.choice` from a nonempty pool lands in the pool. -/
theorem randChoice_mem {α : Type} (l : List α) (d : α) (w : W) (h : l ≠ []) :
    (randChoice l d w).1 ∈ l := by
  have hl : 0 < l.length := List.length_pos.mpr h
  have hm : w.rand w.ri % l.length < l.length := Nat.mod_lt _ hl
  simp only [randChoice, nextNat]
  rw [List.getD_eq_getElem _ _ hm]
  exact List.getElem_mem hm

/-- A unit draw is below any rate of at least 1, as `random.random() < 1.0`
always holds. -/
theorem unitQ_lt_one (n : Nat) : unitQ n < 1 := by
  unfold unitQ
  rw [div_lt_one (by norm_num)]
  exact_mod_cast Nat.mod_lt _ (by norm_num)

/-- A unit draw is never below 0, as `random.random() < 0.0` never holds. -/
theorem unitQ_nonneg (n : Nat) : 0 ≤ unitQ n := by
  unfold unitQ
  positivity

theorem make_event_event_type (u sid : String) (ety : Option String) (w : W) :
    (make_event u sid ety w).1.event_type = (pickEtype ety w).1 := rfl

theorem make_event_page_eq (u sid : String) (ety : Option String) (w : W) :
    (make_event u sid ety w).1.page =
      (pickPage (pickEtype ety w).1 (pickEtype ety w).2).1 := rfl

theorem make_event_attrs_eq (u sid : String) (ety : Option String) (w : W) :
    ∃ w', (make_event u sid ety w).1.attributes =
      (mkAttrs (pickEtype ety w).1 w').1 := ⟨_, rfl⟩

theorem pickEtype_some (t : String) (ht : t ≠ "") (w : W) :
    pickEtype (some t) w = (t, w) := by
  simp [pickEtype, ht]

theorem mkAttrs_keys_purchase (w : W) :
    ((mkAttrs "purchase" w).1).map Prod.fst =
      ["ab_test_variant", "utm_campaign", "product_id", "price", "currency",
       "quantity", "order_id", "payment_method"] := by
  simp [mkAttrs]

theorem mkAttrs_keys_cart (w : W) :
    ((mkAttrs "add_to_cart" w).1).map Prod.fst =
      ["ab_test_variant", "utm_campaign", "product_id", "price", "currency",
       "quantity"] := by
  simp [mkAttrs]

theorem pickPage_commerce (etype : String) (w : W)
    (h : etype = "add_to_cart" ∨ etype = "purchase") :
    (pickPage etype w).1 ∈ COMMERCE_PAGES := by
  simp only [pickPage]
  rw [if_pos h]
  exact randChoice_mem _ _ _ (by simp [COMMERCE_PAGES])

theorem pickPage_other (etype : String) (w : W)
    (h : ¬(etype = "add_to_cart" ∨ etype = "purchase")) :
    (pickPage etype w).1 ∈ PAGES := by
  simp only [pickPage]
  rw [if_neg h]
  exact randChoice_mem _ _ _ (by simp [PAGES])

/-- A fixed concrete world used for witnesses: every raw draw is 0, the
auxiliary streams are indexed tokens, the clock starts at 10^9 ms. -/
def wex : W :=
  ⟨fun _ => 0, fun n => "uuid" ++ toString n, fun n => "city" ++ toString n,
   fun n => 1000000000 + n, 0, 0, 0, 0⟩

/-!  Claim theorems C6, C7, C8. -/

/-- C6: every call to `generate_session_events` (with a valid
`max_events ≥ 1`, as `random.randint(1, max_events)` requires) returns a
sequence whose first event has `event_type = "page_view"`. -/
theorem session_first_event_page_view (user_id : String) (max_events : Nat)
    (w : W) (hme : 1 ≤ max_events) :
    ∃ e rest, (generate_session_events user_id max_events w).1 = e :: rest ∧
      e.event_type = "page_view" := by
  refine ⟨_, _, rfl, ?_⟩
  rw [make_event_event_type]
  simp [pickEtype]

/-- Witness for C6 at a concrete input. -/
theorem session_first_event_page_view_witness :
    ∃ e rest, (generate_session_events "usr_x" 12 wex).1 = e :: rest ∧
      e.event_type = "page_view" :=
  session_first_event_page_view "usr_x" 12 wex (by decide)

/-- C7: any event the synthesizer produces with type `purchase` carries the
attribute keys of an `add_to_cart` event (`ab_test_variant`, `utm_campaign`,
`product_id`, `price`, `currency`, `quantity`) plus `order_id` and
`payment_method` — a strict superset of the `add_to_cart` attribute keys,
which are exactly the first six. -/
theorem purchase_attrs_superset (u sid : String) (ety : Option String) (w : W) :
    ((make_event u sid ety w).1.event_type = "purchase" →
      ((make_event u sid ety w).1.attributes).map Prod.fst =
        ["ab_test_variant", "utm_campaign", "product_id", "price", "currency",
         "quantity", "order_id", "payment_method"]) ∧
    ((make_event u sid ety w).1.event_type = "add_to_cart" →
      ((make_event u sid ety w).1.attributes).map Prod.fst =
        ["ab_test_variant", "utm_campaign", "product_id", "price", "currency",
         "quantity"]) := by
  obtain ⟨w', hw'⟩ := make_event_attrs_eq u sid ety w
  have he := make_event_event_type u sid ety w
  constructor
  · intro h
    rw [hw']
    rw [he] at h
    rw [h]
    exact mkAttrs_keys_purchase w'
  · intro h
    rw [hw']
    rw [he] at h
    rw [h]
    exact mkAttrs_keys_cart w'

/-- Witness for C7 at a concrete input. -/
theorem purchase_attrs_superset_witness :
    ((make_event "u1" "s1" (some "purchase") wex).1.attributes).map Prod.fst =
      ["ab_test_variant", "utm_campaign", "product_id", "price", "currency",
       "quantity", "order_id", "payment_method"] :=
  (purchase_attrs_superset "u1" "s1" (some "purchase") wex).1 (by decide)

/-- C8: any event the synthesizer produces with type `add_to_cart` or
`purchase` has its page drawn from the commerce pool
`["/product", "/cart", "/checkout"]`; any other event has its page drawn
from the full pool `PAGES`. -/
theorem page_pool_selection (u sid : String) (ety : Option String) (w : W) :
    ((make_event u sid ety w).1.event_type = "add_to_cart" ∨
        (make_event u sid ety w).1.event_type = "purchase" →
      (make_event u sid ety w).1.page ∈ COMMERCE_PAGES) ∧
    (¬((make_event u sid ety w).1.event_type = "add_to_cart" ∨
        (make_event u sid ety w).1.event_type = "purchase") →
      (make_event u sid ety w).1.page ∈ PAGES) := by
  have he := make_event_event_type u sid ety w
  have hp := make_event_page_eq u sid ety w
  constructor
  · intro h
    rw [he] at h
    rw [hp]
    exact pickPage_commerce _ _ h
  · intro h
    rw [he] at h
    rw [hp]
    exact pickPage_other _ _ h

/-- Witness for C8 at a concrete input. -/
theorem page_pool_selection_witness :
    (make_event "u2" "s2" (some "add_to_cart") wex).1.page ∈ COMMERCE_PAGES :=
  (page_pool_selection "u2" "s2" (some "add_to_cart") wex).1 (by decide)

/-!  Evaluation lemmas for the fault injectors. -/

/-- When the out-of-order draw succeeds, `injectOO` rewrites `event_ts` to
`now - randint(60, 3600)` seconds and consumes two raw draws and one clock
read. -/
theorem injectOO_true (oo_rate : ℚ) (p : ClickstreamEvent) (w : W)
    (h : unitQ (w.rand w.ri) < oo_rate) :
    injectOO oo_rate p w =
      ({ p with event_ts :=
          w.clock w.ti - 1000 * ((60 + w.rand (w.ri + 1) % 3541 : Nat) : Int) },
       { w with ri := w.ri + 1 + 1, ti := w.ti + 1 }) := by
  simp [injectOO, coinFlip, nextNat, nowClock, randint, decide_eq_true h]

/-- When the out-of-order draw fails, `injectOO` leaves the payload intact
and consumes one raw draw. -/
theorem injectOO_false (oo_rate : ℚ) (p : ClickstreamEvent) (w : W)
    (h : ¬ unitQ (w.rand w.ri) < oo_rate) :
    injectOO oo_rate p w = (p, { w with ri := w.ri + 1 }) := by
  simp [injectOO, coinFlip, nextNat, decide_eq_false h]

/-- When the window is nonempty and the duplicate draw succeeds, `injectDup`
discards its payload and returns the uniformly indexed window element. -/
theorem injectDup_true (dup_rate : ℚ) (window : List ClickstreamEvent)
    (p : ClickstreamEvent) (w : W) (hne : window ≠ [])
    (h : unitQ (w.rand w.ri) < dup_rate) :
    injectDup dup_rate window p w =
      (window.getD (w.rand (w.ri + 1) % window.length) p,
       { w with ri := w.ri + 1 + 1 }) := by
  simp [injectDup, coinFlip, nextNat, randChoice, hne, decide_eq_true h]

/-!  Claim theorem C2. -/

/-- C2: whenever the `oo_rate` draw succeeds (which is every emission when
`oo_rate = 1`), the freshly synthesized record has its `event_ts` replaced by
the current wall-clock time minus a uniformly drawn amount of 60 to 3600
seconds — so the new timestamp is strictly earlier than the emission time, by
at least 60 and at most 3600 seconds (the clock counts milliseconds).  When
the draw fails, the timestamp is untouched.  In `emitOne` this runs on the
fresh payload (after synthesis) and before `injectDup` (the duplicate check),
per record. -/
theorem oo_timestamp_shift (oo_rate : ℚ) (p : ClickstreamEvent) (w : W) :
    (unitQ (w.rand w.ri) < oo_rate →
      ∃ d : Nat, 60 ≤ d ∧ d ≤ 3600 ∧
        (injectOO oo_rate p w).1 =
          { p with event_ts := w.clock w.ti - 1000 * (d : Int) } ∧
        60 * 1000 ≤ w.clock w.ti - (injectOO oo_rate p w).1.event_ts ∧
        w.clock w.ti - (injectOO oo_rate p w).1.event_ts ≤ 3600 * 1000) ∧
    (oo_rate = 1 → unitQ (w.rand w.ri) < oo_rate) ∧
    (¬ unitQ (w.rand w.ri) < oo_rate → (injectOO oo_rate p w).1 = p) := by
  refine ⟨?_, ?_, ?_⟩
  · intro h
    have hm : w.rand (w.ri + 1) % 3541 < 3541 :=
      Nat.mod_lt _ (by norm_num)
    refine ⟨60 + w.rand (w.ri + 1) % 3541, Nat.le_add_right _ _, by omega,
      ?_, ?_, ?_⟩
    · rw [injectOO_true oo_rate p w h]
    · rw [injectOO_true oo_rate p w h]
      simp only []
      omega
    · rw [injectOO_true oo_rate p w h]
      simp only []
      omega
  · intro h
    rw [h]
    exact unitQ_lt_one _
  · intro h
    rw [injectOO_false oo_rate p w h]

/-- A concrete event used by witnesses. -/
def pex : ClickstreamEvent :=
  ⟨"ev0", 5000000, "usr_a", "sess_a", "page_view", "/", "direct",
   [("os", "iOS"), ("browser", "Chrome")], [("country", "DE"), ("city", "x")],
   [("ab_test_variant", Prim.s "A"), ("utm_campaign", Prim.s "brand")]⟩

/-- Witness for C2: with `oo_rate = 1` the draw succeeds and the shift is
observed at a concrete input. -/
theorem oo_timestamp_shift_witness :
    ∃ d : Nat, 60 ≤ d ∧ d ≤ 3600 ∧
      (injectOO 1 pex wex).1 =
        { pex with event_ts := wex.clock wex.ti - 1000 * (d : Int) } ∧
      60 * 1000 ≤ wex.clock wex.ti - (injectOO 1 pex wex).1.event_ts ∧
      wex.clock wex.ti - (injectOO 1 pex wex).1.event_ts ≤ 3600 * 1000 :=
  (oo_timestamp_shift 1 pex wex).1 (unitQ_lt_one _)

/-!  Evaluation and preservation lemmas for the emission loop. -/

/-- Evaluation of `emitOne` under a successful duplicate draw: the emitted line and the
window entry are the chosen previous payload; the freshly synthesized
(post-`injectOO`) payload `p1` appears nowhere in the result. -/
theorem emitOne_dup (cfg : Config) (ev : ClickstreamEvent) (s : LoopState)
    (hne : s.window ≠ []) (p1 : ClickstreamEvent) (w1 : W)
    (h1 : injectOO cfg.oo_rate ev s.w = (p1, w1))
    (hdup : unitQ (w1.rand w1.ri) < cfg.dup_rate) :
    emitOne cfg ev s =
      ⟨{ w1 with ri := w1.ri + 1 + 1 },
       truncateWindow (s.window ++
         [s.window.getD (w1.rand (w1.ri + 1) % s.window.length) p1]),
       s.output ++
         [dumps (s.window.getD (w1.rand (w1.ri + 1) % s.window.length) p1)],
       s.emitted + 1⟩ := by
  have hd : injectDup cfg.dup_rate s.window (injectOO cfg.oo_rate ev s.w).1
      (injectOO cfg.oo_rate ev s.w).2 =
      (s.window.getD (w1.rand (w1.ri + 1) % s.window.length) p1,
       { w1 with ri := w1.ri + 1 + 1 }) := by
    rw [h1]
    exact injectDup_true _ _ _ _ hne hdup
  simp only [emitOne, hd]
  rfl

/-- Shape of `emitOne` always: some payload gets serialized, appended to the output
and to the (then truncated) window, and the counter is bumped. -/
theorem emitOne_state (cfg : Config) (ev : ClickstreamEvent) (s : LoopState) :
    ∃ p w', emitOne cfg ev s =
      ⟨w', truncateWindow (s.window ++ [p]), s.output ++ [dumps p],
       s.emitted + 1⟩ :=
  ⟨_, _, rfl⟩

/-- Truncation only drops elements. -/
theorem mem_of_mem_truncate {q : ClickstreamEvent} {l : List ClickstreamEvent}
    (h : q ∈ truncateWindow l) : q ∈ l := by
  unfold truncateWindow at h
  split at h
  · exact List.mem_of_mem_drop h
  · exact h

/-- Any property preserved by `emitOne` is preserved by the inner session
loop. -/
theorem emitSession_pres (cfg : Config) (Q : LoopState → Prop)
    (hQ : ∀ ev s, Q s → Q (emitOne cfg ev s)) :
    ∀ evs s, Q s → Q (emitSession cfg evs s) := by
  intro evs
  induction evs with
  | nil => intro s h; exact h
  | cons ev rest ih =>
      intro s h
      simp only [emitSession]
      split
      · exact h
      · exact ih _ (hQ _ _ h)

/-- Any property preserved by `emitOne` and insensitive to the world
component is preserved by the outer loop. -/
theorem mainLoop_pres (cfg : Config) (Q : LoopState → Prop)
    (hQ : ∀ ev s, Q s → Q (emitOne cfg ev s))
    (hW : ∀ s w', Q s → Q ⟨w', s.window, s.output, s.emitted⟩) :
    ∀ fuel s, Q s → Q (mainLoop cfg fuel s) := by
  intro fuel
  induction fuel with
  | zero => intro s h; exact h
  | succ f ih =>
      intro s h
      simp only [mainLoop]
      split
      · exact ih _ (emitSession_pres cfg Q hQ _ _ (hW _ _ h))
      · exact h

/-- Run invariant: every record in the retained window was previously
emitted — its serialization is already among the output lines. -/
theorem run_window_emitted (cfg : Config) (w : W) :
    ∀ q ∈ (run cfg w).window, dumps q ∈ (run cfg w).output := by
  refine mainLoop_pres cfg
    (fun s => ∀ q ∈ s.window, dumps q ∈ s.output) ?_ ?_ _ _ ?_
  · intro ev s h q hq
    obtain ⟨p, w', he⟩ := emitOne_state cfg ev s
    rw [he] at hq ⊢
    have hq2 : q ∈ s.window ++ [p] := mem_of_mem_truncate hq
    rcases List.mem_append.mp hq2 with hil | hir
    · exact List.mem_append_left _ (h q hil)
    · simp only [List.mem_singleton] at hir
      subst hir
      exact List.mem_append_right _ (List.mem_singleton.mpr rfl)
  · intro s w' h
    exact h
  · intro q hq
    exact absurd hq (List.not_mem_nil q)

/-!  Claim theorems C1, C9. -/

/-- C1: when the duplicate branch is taken (nonempty window of previously
emitted records and a successful `dup_rate` draw, evaluated after the
out-of-order step produced `(p1, w1)`), the emitted line is exactly the
serialization of the window element at the uniformly drawn index — the
previous record verbatim, all fields (hence `event_id` and `event_ts`)
included — and every record in the window was itself previously emitted. -/
theorem duplicate_emission_verbatim (cfg : Config) (ev : ClickstreamEvent)
    (s : LoopState) (hne : s.window ≠ [])
    (p1 : ClickstreamEvent) (w1 : W)
    (h1 : injectOO cfg.oo_rate ev s.w = (p1, w1))
    (hdup : unitQ (w1.rand w1.ri) < cfg.dup_rate) :
    (∃ hk : w1.rand (w1.ri + 1) % s.window.length < s.window.length,
      s.window.get ⟨w1.rand (w1.ri + 1) % s.window.length, hk⟩ ∈ s.window ∧
      (emitOne cfg ev s).output = s.output ++
        [dumps (s.window.get ⟨w1.rand (w1.ri + 1) % s.window.length, hk⟩)]) ∧
    (∀ cfg2 w2, ∀ q ∈ (run cfg2 w2).window, dumps q ∈ (run cfg2 w2).output) := by
  have hk : w1.rand (w1.ri + 1) % s.window.length < s.window.length :=
    Nat.mod_lt _ (List.length_pos.mpr hne)
  refine ⟨⟨hk, List.get_mem _ _ _, ?_⟩, fun cfg2 w2 => run_window_emitted cfg2 w2⟩
  rw [emitOne_dup cfg ev s hne p1 w1 h1 hdup]
  rw [List.getD_eq_getElem _ _ hk]
  simp [List.get_eq_getElem]

/-- C9: under the duplicate branch the chosen previous payload fully replaces
the fresh record: the conclusion mentions neither the fresh `ev` nor its
out-of-order-modified form `p1` — the emitted line and the new window entry
are the chosen element, which is appended to the window again, so it then
occupies at least two window slots. -/
theorem duplicate_replaces_fresh (cfg : Config) (ev : ClickstreamEvent)
    (s : LoopState) (hne : s.window ≠ [])
    (p1 : ClickstreamEvent) (w1 : W)
    (h1 : injectOO cfg.oo_rate ev s.w = (p1, w1))
    (hdup : unitQ (w1.rand w1.ri) < cfg.dup_rate) :
    ∃ hk : w1.rand (w1.ri + 1) % s.window.length < s.window.length,
      (emitOne cfg ev s).window = truncateWindow (s.window ++
        [s.window.get ⟨w1.rand (w1.ri + 1) % s.window.length, hk⟩]) ∧
      (emitOne cfg ev s).output = s.output ++
        [dumps (s.window.get ⟨w1.rand (w1.ri + 1) % s.window.length, hk⟩)] ∧
      2 ≤ (s.window ++
        [s.window.get ⟨w1.rand (w1.ri + 1) % s.window.length, hk⟩]).count
          (s.window.get ⟨w1.rand (w1.ri + 1) % s.window.length, hk⟩) := by
  have hk : w1.rand (w1.ri + 1) % s.window.length < s.window.length :=
    Nat.mod_lt _ (List.length_pos.mpr hne)
  refine ⟨hk, ?_, ?_, ?_⟩
  · rw [emitOne_dup cfg ev s hne p1 w1 h1 hdup]
    rw [List.getD_eq_getElem _ _ hk]
    simp [List.get_eq_getElem]
  · rw [emitOne_dup cfg ev s hne p1 w1 h1 hdup]
    rw [List.getD_eq_getElem _ _ hk]
    simp [List.get_eq_getElem]
  · have hmem : s.window.get ⟨w1.rand (w1.ri + 1) % s.window.length, hk⟩ ∈
        s.window := List.get_mem _ _ _
    have hpos : 0 < s.window.count
        (s.window.get ⟨w1.rand (w1.ri + 1) % s.window.length, hk⟩) :=
      List.count_pos_iff.mpr hmem
    rw [List.count_append]
    simp only [List.count_singleton, beq_self_eq_true, if_true]
    omega

/-!  Concrete inputs for the loop witnesses. -/

/-- A configuration with `dup_rate = 1` and `oo_rate = 0`. -/
def cfgWit : Config := ⟨1, 12, "-", 1, 0⟩

/-- The world `wex` after one raw draw. -/
def wex1 : W := { wex with ri := 1 }

/-- A loop state whose window holds one previously emitted record. -/
def sWit : LoopState := ⟨wex, [pex], [dumps pex], 1⟩

/-- With `oo_rate = 0` the out-of-order draw fails on `wex`. -/
theorem injectOO_wex : injectOO cfgWit.oo_rate pex wex = (pex, wex1) := by
  rw [injectOO_false]
  · rfl
  · exact not_lt.mpr (unitQ_nonneg _)

/-- Witness for C1 at a concrete input. -/
theorem duplicate_emission_verbatim_witness :
    (∃ hk : wex1.rand (wex1.ri + 1) % sWit.window.length < sWit.window.length,
      sWit.window.get ⟨wex1.rand (wex1.ri + 1) % sWit.window.length, hk⟩ ∈
        sWit.window ∧
      (emitOne cfgWit pex sWit).output = sWit.output ++
        [dumps (sWit.window.get
          ⟨wex1.rand (wex1.ri + 1) % sWit.window.length, hk⟩)]) ∧
    (∀ cfg2 w2, ∀ q ∈ (run cfg2 w2).window, dumps q ∈ (run cfg2 w2).output) :=
  duplicate_emission_verbatim cfgWit pex sWit (List.cons_ne_nil _ _) pex wex1
    injectOO_wex (unitQ_lt_one _)

/-- A loop state whose window holds two previously emitted records. -/
def sWit9 : LoopState := ⟨wex, [pex, pex], [dumps pex, dumps pex], 2⟩

/-- Witness for C9 at a concrete input. -/
theorem duplicate_replaces_fresh_witness :
    ∃ hk : wex1.rand (wex1.ri + 1) % sWit9.window.length < sWit9.window.length,
      (emitOne cfgWit pex sWit9).window = truncateWindow (sWit9.window ++
        [sWit9.window.get ⟨wex1.rand (wex1.ri + 1) % sWit9.window.length, hk⟩]) ∧
      (emitOne cfgWit pex sWit9).output = sWit9.output ++
        [dumps (sWit9.window.get
          ⟨wex1.rand (wex1.ri + 1) % sWit9.window.length, hk⟩)] ∧
      2 ≤ (sWit9.window ++
        [sWit9.window.get
          ⟨wex1.rand (wex1.ri + 1) % sWit9.window.length, hk⟩]).count
          (sWit9.window.get
            ⟨wex1.rand (wex1.ri + 1) % sWit9.window.length, hk⟩) :=
  duplicate_replaces_fresh cfgWit pex sWit9 (List.cons_ne_nil _ _) pex wex1
    injectOO_wex (unitQ_lt_one _)

/-!  Claim theorem C3. -/

/-- Truncation keeps a short list intact. -/
theorem truncateWindow_of_le (l : List ClickstreamEvent) (h : l.length ≤ 5000) :
    truncateWindow l = l := by
  unfold truncateWindow
  rw [if_neg (by omega)]

/-- One emission never grows the window beyond 5000. -/
theorem emitOne_window_le (cfg : Config) (ev : ClickstreamEvent)
    (s : LoopState) (h : s.window.length ≤ 5000) :
    (emitOne cfg ev s).window.length ≤ 5000 := by
  obtain ⟨p, w', he⟩ := emitOne_state cfg ev s
  rw [he]
  unfold truncateWindow
  split
  · simp only [List.length_drop]
    omega
  · simp only [List.length_append, List.length_singleton] at *
    omega

/-- C3: the retained window keeps all previously emitted records while its
size stays below 5000 (the new payload is just appended); on the emission
that makes it exceed 5000 — the 5001st entry — it is hard-truncated to the
most recent 2000 records (`drop 3001` of the 5001); consequently after every
emission, and at the end of every loop iteration of any run, the window
holds at most 5000 records. -/
theorem window_retention_policy (cfg : Config) (ev : ClickstreamEvent)
    (s : LoopState) (w : W) :
    (s.window.length < 5000 →
      ∃ p, (emitOne cfg ev s).window = s.window ++ [p]) ∧
    (s.window.length = 5000 →
      (emitOne cfg ev s).window.length = 2000 ∧
      ∃ p, (emitOne cfg ev s).window = (s.window ++ [p]).drop 3001) ∧
    (s.window.length ≤ 5000 → (emitOne cfg ev s).window.length ≤ 5000) ∧
    (run cfg w).window.length ≤ 5000 := by
  obtain ⟨p, w', he⟩ := emitOne_state cfg ev s
  have hlen1 : (s.window ++ [p]).length = s.window.length + 1 := by
    simp only [List.length_append, List.length_singleton]
  refine ⟨?_, ?_, fun h => emitOne_window_le cfg ev s h, ?_⟩
  · intro h
    refine ⟨p, ?_⟩
    rw [he]
    apply truncateWindow_of_le
    omega
  · intro h
    constructor
    · rw [he]
      unfold truncateWindow
      rw [if_pos (by omega)]
      rw [List.length_drop]
      omega
    · refine ⟨p, ?_⟩
      rw [he]
      unfold truncateWindow
      rw [if_pos (by omega)]
      have h2 : (s.window ++ [p]).length - 2000 = 3001 := by omega
      rw [h2]
  · exact mainLoop_pres cfg (fun st => st.window.length ≤ 5000)
      (fun ev2 s2 h2 => emitOne_window_le cfg ev2 s2 h2)
      (fun s2 w2 h2 => h2) _ _ (by simp)

/-- A loop state whose window already holds 5000 records. -/
def sWit3 : LoopState := ⟨wex, List.replicate 5000 pex, [], 5000⟩

/-- Witness for C3: the 5001st entry triggers the hard truncation to the most
recent 2000. -/
theorem window_retention_policy_witness :
    (emitOne cfgWit pex sWit3).window.length = 2000 ∧
    ∃ p, (emitOne cfgWit pex sWit3).window = (sWit3.window ++ [p]).drop 3001 :=
  (window_retention_policy cfgWit pex sWit3 wex).2.1
    (List.length_replicate 5000 pex)

/-!  Counting the emitted lines. -/

theorem emitOne_emitted (cfg : Config) (ev : ClickstreamEvent) (s : LoopState) :
    (emitOne cfg ev s).emitted = s.emitted + 1 := rfl

/-- One emission preserves "as many lines as the counter says, every line the
serialization of some payload". -/
theorem emitOne_lineQ (cfg : Config) : ∀ (ev : ClickstreamEvent) (s : LoopState),
    (s.output.length = s.emitted ∧ ∀ line ∈ s.output, ∃ p, line = dumps p) →
    ((emitOne cfg ev s).output.length = (emitOne cfg ev s).emitted ∧
      ∀ line ∈ (emitOne cfg ev s).output, ∃ p, line = dumps p) := by
  rintro ev s ⟨h1, h2⟩
  obtain ⟨p, w', he⟩ := emitOne_state cfg ev s
  rw [he]
  constructor
  · simp [h1]
  · intro line hl
    simp only [List.mem_append, List.mem_singleton] at hl
    rcases hl with h | h
    · exact h2 line h
    · exact ⟨p, h⟩

/-- The session loop never lets the counter pass the target. -/
theorem emitSession_emitted_le (cfg : Config) :
    ∀ (evs : List ClickstreamEvent) (s : LoopState),
    s.emitted ≤ cfg.events.toNat →
    (emitSession cfg evs s).emitted ≤ cfg.events.toNat := by
  intro evs
  induction evs with
  | nil => intro s h; exact h
  | cons ev rest ih =>
      intro s h
      simp only [emitSession]
      by_cases hc : cfg.events ≤ (s.emitted : Int)
      · rw [if_pos hc]; exact h
      · rw [if_neg hc]
        apply ih
        have hlt : (s.emitted : Int) < cfg.events := not_le.mp hc
        have h2 : s.emitted < cfg.events.toNat := Int.lt_toNat.mpr hlt
        rw [emitOne_emitted]
        omega

/-- The counter never decreases across the session loop. -/
theorem emitSession_emitted_mono (cfg : Config) :
    ∀ (evs : List ClickstreamEvent) (s : LoopState),
    s.emitted ≤ (emitSession cfg evs s).emitted := by
  intro evs
  induction evs with
  | nil => intro s; exact Nat.le_refl _
  | cons ev rest ih =>
      intro s
      simp only [emitSession]
      by_cases hc : cfg.events ≤ (s.emitted : Int)
      · rw [if_pos hc]
      · rw [if_neg hc]
        have := ih (emitOne cfg ev s)
        rw [emitOne_emitted] at this
        omega

/-- An active guard plus a nonempty session means at least one more
emission. -/
theorem emitSession_progress (cfg : Config) (ev : ClickstreamEvent)
    (evs : List ClickstreamEvent) (s : LoopState)
    (h : ¬ cfg.events ≤ (s.emitted : Int)) :
    s.emitted + 1 ≤ (emitSession cfg (ev :: evs) s).emitted := by
  simp only [emitSession]
  rw [if_neg h]
  have := emitSession_emitted_mono cfg evs (emitOne cfg ev s)
  rw [emitOne_emitted] at this
  omega

/-- A generated session is never empty: the `page_view` head is always
there. -/
theorem session_ne_nil (uid : String) (me : Nat) (w : W) :
    ∃ e rest, (generate_session_events uid me w).1 = e :: rest := ⟨_, _, rfl⟩

/-- With fuel at least the remaining target, the fuelled outer loop lands the
counter exactly on `events.toNat`, with one serialized line per count. -/
theorem mainLoop_emitted (cfg : Config) : ∀ (fuel : Nat) (s : LoopState),
    s.output.length = s.emitted →
    (∀ line ∈ s.output, ∃ p, line = dumps p) →
    s.emitted ≤ cfg.events.toNat →
    cfg.events.toNat ≤ s.emitted + fuel →
    (mainLoop cfg fuel s).emitted = cfg.events.toNat ∧
    (mainLoop cfg fuel s).output.length = cfg.events.toNat ∧
    ∀ line ∈ (mainLoop cfg fuel s).output, ∃ p, line = dumps p := by
  intro fuel
  induction fuel with
  | zero =>
      intro s h1 h2 h3 h4
      have he : s.emitted = cfg.events.toNat := by omega
      exact ⟨he, by simp only [mainLoop]; rw [h1, he], h2⟩
  | succ f ih =>
      intro s h1 h2 h3 h4
      simp only [mainLoop]
      by_cases hc : (s.emitted : Int) < cfg.events
      · rw [if_pos hc]
        obtain ⟨e, rest, hsess⟩ := session_ne_nil (new_user_id s.w).1
          cfg.max_events_per_session (new_user_id s.w).2
        rw [hsess]
        have hgc : ¬ cfg.events ≤
            ((⟨(generate_session_events (new_user_id s.w).1
                cfg.max_events_per_session (new_user_id s.w).2).2,
              s.window, s.output, s.emitted⟩ : LoopState).emitted : Int) :=
          not_le.mpr hc
        have hp : s.emitted + 1 ≤ (emitSession cfg (e :: rest)
            ⟨(generate_session_events (new_user_id s.w).1
                cfg.max_events_per_session (new_user_id s.w).2).2,
              s.window, s.output, s.emitted⟩).emitted :=
          emitSession_progress cfg e rest _ hgc
        have hle : (emitSession cfg (e :: rest)
            ⟨(generate_session_events (new_user_id s.w).1
                cfg.max_events_per_session (new_user_id s.w).2).2,
              s.window, s.output, s.emitted⟩).emitted ≤ cfg.events.toNat :=
          emitSession_emitted_le cfg (e :: rest) _ h3
        have hQ := emitSession_pres cfg
          (fun st => st.output.length = st.emitted ∧
            ∀ line ∈ st.output, ∃ p, line = dumps p)
          (emitOne_lineQ cfg) (e :: rest)
          ⟨(generate_session_events (new_user_id s.w).1
              cfg.max_events_per_session (new_user_id s.w).2).2,
            s.window, s.output, s.emitted⟩ ⟨h1, h2⟩
        exact ih _ hQ.1 hQ.2 hle (by omega)
      · rw [if_neg hc]
        have h5 : cfg.events.toNat ≤ s.emitted := Int.toNat_le.mpr (not_lt.mp hc)
        have he : s.emitted = cfg.events.toNat := by omega
        exact ⟨he, by rw [h1, he], h2⟩

/-- The whole run: exactly `events.toNat` lines, each the compact JSON
serialization of some payload. -/
theorem run_output (cfg : Config) (w : W) :
    (run cfg w).output.length = cfg.events.toNat ∧
    ∀ line ∈ (run cfg w).output, ∃ p, line = dumps p := by
  have h := mainLoop_emitted cfg cfg.events.toNat ⟨w, [], [], 0⟩ rfl
    (by intro line hl; exact absurd hl (List.not_mem_nil line))
    (Nat.zero_le _) (by omega)
  exact ⟨h.2.1, h.2.2⟩

/-!  Shape of serialized lines versus the banner line. -/

/-- Every serialized record line begins with an opening brace. -/
theorem dumps_head (p : ClickstreamEvent) :
    (dumps p).data.head? = some (Char.ofNat 123) := by
  unfold dumps
  rw [String.data_append, String.data_append]
  rfl

/-- The banner line begins with the letter p. -/
theorem banner_head (cfg : Config) :
    (banner cfg).data.head? = some (Char.ofNat 112) := by
  unfold banner
  rw [String.data_append, String.data_append]
  rfl

/-- The banner is never a serialized record. -/
theorem banner_ne_dumps (cfg : Config) (p : ClickstreamEvent) :
    banner cfg ≠ dumps p := by
  intro h
  have h1 := banner_head cfg
  rw [h, dumps_head] at h1
  exact absurd (Option.some.inj h1) (by decide)

/-!  Claim C5 (corrected): the record stream versus the stdout stream. -/

/-- The default-destination configuration used in the C5 counterexample:
one requested event, stdout output. -/
def cfg5c : Config := ⟨1, 12, "-", 1 / 100, 1 / 50⟩

/-- Counterexample to C5 as stated: with `--events=1` and the stdout
destination, the selected destination stream carries 2 lines, not 1, and its
first line is not the serialization of any record — it is the banner printed
by line 157 of the source. -/
theorem exactly_n_lines_counterexample :
    (program cfg5c (fun _ => true) wex).stdoutLines.length = 2 ∧
    ¬ ∃ p : ClickstreamEvent,
      (program cfg5c (fun _ => true) wex).stdoutLines.headD "" = dumps p := by
  constructor
  · rfl
  · rintro ⟨p, hp⟩
    have hb : (program cfg5c (fun _ => true) wex).stdoutLines.headD "" =
        banner cfg5c := rfl
    rw [hb] at hp
    exact banner_ne_dumps cfg5c p hp

/-- C5 amended: every run emits exactly `max(events, 0)` record lines, each
one compact JSON object (the serialization of some payload); the emission
counter gates loop termination.  They are the only lines in an output file;
on the stdout destination they are preceded by the one non-JSON banner line,
so stdout carries `max(events, 0) + 1` lines. -/
theorem output_lines_amended (cfg : Config) (wr : String → Bool) (w : W) :
    (run cfg w).output.length = cfg.events.toNat ∧
    (∀ line ∈ (run cfg w).output, ∃ p : ClickstreamEvent, line = dumps p) ∧
    (cfg.out = "-" →
      (program cfg wr w).stdoutLines = banner cfg :: (run cfg w).output) ∧
    (cfg.out ≠ "-" → dirname cfg.out ≠ "" → wr cfg.out = true →
      (program cfg wr w).fileLines = some ((run cfg w).output)) := by
  refine ⟨(run_output cfg w).1, (run_output cfg w).2, ?_, ?_⟩
  · intro h
    unfold program
    rw [if_pos h]
  · intro h1 h2 h3
    unfold program
    rw [if_neg h1]
    unfold makedirs
    rw [if_neg h2]
    simp only [h3, if_true]

/-- A file-destination configuration with a writable directory path. -/
def cfg5f : Config := ⟨2, 3, "data/out.jsonl", 0, 0⟩

/-- Witness for the amended C5: both destinations observed at concrete
inputs. -/
theorem output_lines_amended_witness :
    ((program cfg5c (fun _ => true) wex).stdoutLines =
      banner cfg5c :: (run cfg5c wex).output) ∧
    ((program cfg5f (fun _ => true) wex).fileLines =
      some ((run cfg5f wex).output)) :=
  ⟨(output_lines_amended cfg5c (fun _ => true) wex).2.2.1 rfl,
   (output_lines_amended cfg5f (fun _ => true) wex).2.2.2 (by decide)
     (by decide) rfl⟩

/-!  Claim C4 (corrected): configuration-error handling. -/

/-- A configuration that C4 calls invalid: zero `--events` and rates outside
the unit interval. -/
def cfg4c : Config := ⟨0, 12, "-", 2, 2⟩

/-- Counterexample to C4 as stated: the "invalid" configuration (`--events=0`,
rates `2.0`) is not reported and not fatal — the process runs to normal
completion with exit code 0, emitting only the banner. -/
theorem config_validation_counterexample :
    (program cfg4c (fun _ => true) wex).exitValue = 0 ∧
    (program cfg4c (fun _ => true) wex).stdoutLines = [banner cfg4c] := by
  constructor <;> rfl

/-- C4 amended: numeric ranges are never validated — any `--events` (zero or
negative included) and any rates are accepted, and with the stdout
destination or a writable file path the process completes normally with exit
code 0; only an unwritable output path is fatal: the process exits non-zero
having emitted no record (the file is never populated, stdout holds only the
banner). -/
theorem config_errors_amended (cfg : Config) (wr : String → Bool) (w : W) :
    (cfg.out = "-" → (program cfg wr w).exitValue = 0) ∧
    (cfg.out ≠ "-" → dirname cfg.out ≠ "" → wr cfg.out = true →
      (program cfg wr w).exitValue = 0) ∧
    (cfg.out ≠ "-" → dirname cfg.out ≠ "" → wr cfg.out = false →
      (program cfg wr w).exitValue = 1 ∧
      (program cfg wr w).fileLines = none ∧
      (program cfg wr w).stdoutLines = [banner cfg]) := by
  refine ⟨?_, ?_, ?_⟩
  · intro h
    unfold program
    rw [if_pos h]
  · intro h1 h2 h3
    unfold program
    rw [if_neg h1]
    unfold makedirs
    rw [if_neg h2]
    simp only [h3, if_true]
  · intro h1 h2 h3
    unfold program
    rw [if_neg h1]
    unfold makedirs
    rw [if_neg h2]
    simp only [h3, if_false]
    exact ⟨rfl, rfl, rfl⟩

/-- An unwritable file-destination configuration. -/
def cfg4f : Config := ⟨5, 12, "data/out.jsonl", 1 / 100, 1 / 50⟩

/-- Witness for the amended C4 at concrete inputs: the accepted "invalid"
numbers exit 0; the unwritable path exits 1 with nothing emitted. -/
theorem config_errors_amended_witness :
    ((program cfg4c (fun _ => true) wex).exitValue = 0) ∧
    ((program cfg4f (fun _ => false) wex).exitValue = 1 ∧
      (program cfg4f (fun _ => false) wex).fileLines = none ∧
      (program cfg4f (fun _ => false) wex).stdoutLines = [banner cfg4f]) :=
  ⟨(config_errors_amended cfg4c (fun _ => true) wex).1 rfl,
   (config_errors_amended cfg4f (fun _ => false) wex).2.2 (by decide)
     (by decide) rfl⟩

/-!  Claim C10: the bare-filename crash. -/

/-- A path without a slash has an empty `dirname`. -/
theorem no_slash_dirname (p : String) (h : ∀ c ∈ p.data, c ≠ '/') :
    dirname p = "" := by
  have hf : p.data.reverse.findIdx? (fun c => c = '/') = none := by
    rw [List.findIdx?_eq_none_iff]
    intro c hc
    simpa using h c (List.mem_reverse.mp hc)
  simp only [dirname]
  rw [hf]
  simp

/-- C10: any `--out` value that is a bare filename (no slash, not `-`) makes
the program raise before emitting any record: `os.path.dirname` returns the
empty string and `os.makedirs("")` raises `FileNotFoundError`, so the process
dies with a non-zero exit, no output file, and only the banner on stdout. -/
theorem bare_filename_crash (cfg : Config) (wr : String → Bool) (w : W)
    (h1 : cfg.out ≠ "-") (h2 : ∀ c ∈ cfg.out.data, c ≠ '/') :
    dirname cfg.out = "" ∧
    program cfg wr w = ⟨[banner cfg], none, 1⟩ := by
  have hd := no_slash_dirname cfg.out h2
  refine ⟨hd, ?_⟩
  unfold program
  rw [if_neg h1, hd]
  rfl

/-- A bare-filename output configuration. -/
def cfg10 : Config := ⟨5, 12, "events.jsonl", 1 / 100, 1 / 50⟩

/-- Witness for C10 at a concrete bare filename. -/
theorem bare_filename_crash_witness :
    dirname cfg10.out = "" ∧
    program cfg10 (fun _ => true) wex = ⟨[banner cfg10], none, 1⟩ :=
  bare_filename_crash cfg10 (fun _ => true) wex (by decide) (by decide)
